import Mathlib

/-!
Provider resolution and config normalisation of `commands/util.go`.

A shallow embedding of `initProvider`, `promptProviderSelect`, `promptProjectSelect`
and `GetConfigPayload` from `src/commands/util.go`, followed by the properties
of the specification that concern them.

Conventions of the embedding:

* `os.Stat(filepath.Join(config.ProjectDirectory, f))` is a lookup `fs f` in a
  project directory `fs : Dir`, keyed by the marker file name `f`.  A lookup has
  three results, the three the source tells apart: `err == nil`,
  `os.IsNotExist(err)`, and any other error.
* The package-level variable `deploymentProvider`, the persisted project
  configuration, the items handed to the interactive selection and the list of
  probed files are fields of the record `Run` that a call returns.
* `os.Exit(1)` and a Go run-time panic are outcomes of a call.
* Constants declared in other packages are fields of `Consts`.
-/

namespace Commands

/-! ## Constants and collaborators -/

/-- The string constants that `util.go` reads from the packages `providers`,
`truffle`, `openzeppelin`, `buidler` and `hardhat`. -/
structure Consts where
  OpenZeppelinDeploymentProvider : String
  TruffleDeploymentProvider : String
  BuidlerDeploymentProvider : String
  HardhatDeploymentProvider : String
  NewTruffleConfigFile : String
  OldTruffleConfigFile : String
  OpenzeppelinConfigFile : String
  BuidlerConfigFile : String
  HardhatConfigFile : String

/-- The four provider names are pairwise distinct and none of them is the empty
string (the empty string stands for "no provider" in `initProvider`). -/
def Consts.NamesDistinct (K : Consts) : Prop :=
  ["", K.OpenZeppelinDeploymentProvider, K.TruffleDeploymentProvider,
    K.BuidlerDeploymentProvider, K.HardhatDeploymentProvider].Nodup

/-- The five marker file names (which double as config-type discriminants) are
pairwise distinct. -/
def Consts.FilesDistinct (K : Consts) : Prop :=
  [K.NewTruffleConfigFile, K.OldTruffleConfigFile, K.OpenzeppelinConfigFile,
    K.BuidlerConfigFile, K.HardhatConfigFile].Nodup

instance (K : Consts) : Decidable K.NamesDistinct := by
  unfold Consts.NamesDistinct; infer_instance

instance (K : Consts) : Decidable K.FilesDistinct := by
  unfold Consts.FilesDistinct; infer_instance

/-- Modelled from the spec: the provider-name and marker-file constants, declared
in packages of the repository that are not part of the source at hand.  The spec
gives the persisted OpenZeppelin name as "openzeppelin"; the other values are
representative, pairwise distinct choices used to evaluate the functions. -/
def sampleConsts : Consts where
  OpenZeppelinDeploymentProvider := "openzeppelin"
  TruffleDeploymentProvider := "truffle"
  BuidlerDeploymentProvider := "buidler"
  HardhatDeploymentProvider := "hardhat"
  NewTruffleConfigFile := "truffle-config.js"
  OldTruffleConfigFile := "truffle.js"
  OpenzeppelinConfigFile := "networks.js"
  BuidlerConfigFile := "buidler.config.js"
  HardhatConfigFile := "hardhat.config.js"

/-- Result of `os.Stat` as far as the source inspects it: `ok` is `err == nil`,
`notExist` is an error with `os.IsNotExist(err)`, `otherErr` any other error. -/
inductive StatResult where
  | ok
  | notExist
  | otherErr
deriving DecidableEq, Repr

/-- A project directory: the result of `os.Stat` on each file name joined to
`config.ProjectDirectory`. -/
abbrev Dir := String → StatResult

/-- A directory in which exactly the listed files can be stat-ed and every other
name is reported as not existing. -/
def dirOf (present : List String) : Dir :=
  fun f => if f ∈ present then .ok else .notExist

/-- The provider adapter constructors that `initProvider` can call. -/
inductive Adapter where
  | openzeppelin
  | buidler
  | hardhat
  | truffle
deriving DecidableEq, Repr

/-- How a call ends: a normal return, `os.Exit(1)`, or a run-time panic (index out
of range, nil dereference). -/
inductive Outcome where
  | returned
  | exited
  | panicked
deriving DecidableEq, Repr

/-- The interactive selection `promptui.Select.Run`: given the items shown it
yields the chosen index, or `none` when it reports an error. -/
abbrev Select := List String → Option Nat

/-- Everything observable about one call of `initProvider`. -/
structure Run where
  /-- how the call ended -/
  outcome : Outcome
  /-- the value assigned to the variable `deploymentProvider`, `none` if the call
  assigned nothing -/
  deploymentProvider : Option Adapter
  /-- the provider held in the persisted project configuration after the call
  (the empty string when there is none) -/
  persisted : String
  /-- the items passed to `promptProviderSelect`, `none` if it was not called -/
  prompted : Option (List String)
  /-- the marker files on which `os.Stat` was called, in order -/
  probes : List String
deriving DecidableEq, Repr

/-! ## `promptProviderSelect` (lines 215-228) -/

/-- The function `promptProviderSelect`: run the selection over the given providers;
an error ends the process, otherwise the provider at the chosen index is returned
(indexing outside the slice panics). -/
def promptProviderSelect (select : Select) (deploymentProviders : List String) :
    Except Outcome String :=
  match select deploymentProviders with
  | none => .error .exited
  | some index =>
    match deploymentProviders.get? index with
    | some name => .ok name
    | none => .error .panicked

/-! ## `initProvider` (lines 230-364) -/

/-- Lines 244-259 of `initProvider`: the candidates appended to `promptProviders`
together with the files probed, in source order.  The last two conditions both
stat `buidlerPath`, as in the source. -/
def initProvider.detect (K : Consts) (fs : Dir) : List String × List String :=
  let promptProviders : List String := []
  let promptProviders :=
    if fs K.OpenzeppelinConfigFile = .ok then
      promptProviders ++ [K.OpenZeppelinDeploymentProvider]
    else promptProviders
  let promptProviders :=
    if fs K.NewTruffleConfigFile = .ok then
      promptProviders ++ [K.TruffleDeploymentProvider]
    else if fs K.OldTruffleConfigFile = .ok then
      promptProviders ++ [K.TruffleDeploymentProvider]
    else promptProviders
  let promptProviders :=
    if fs K.BuidlerConfigFile = .ok then
      promptProviders ++ [K.BuidlerDeploymentProvider]
    else promptProviders
  let promptProviders :=
    if fs K.BuidlerConfigFile = .ok then
      promptProviders ++ [K.HardhatDeploymentProvider]
    else promptProviders
  let probes :=
    [K.OpenzeppelinConfigFile, K.NewTruffleConfigFile]
      ++ (if fs K.NewTruffleConfigFile = .ok then [] else [K.OldTruffleConfigFile])
      ++ [K.BuidlerConfigFile, K.BuidlerConfigFile]
  (promptProviders, probes)

/-- Lines 270-364 of `initProvider`: the cascade over the marker files for the
resolved `provider`.  Returns the outcome, the adapter assigned to
`deploymentProvider`, and the files probed. -/
def initProvider.cascade (K : Consts) (fs : Dir) (provider : String) :
    Outcome × Option Adapter × List String :=
  let tryOpenZeppelin : Bool :=
    decide (provider = K.OpenZeppelinDeploymentProvider) || decide (provider = "")
  let probes : List String :=
    if tryOpenZeppelin then [K.OpenzeppelinConfigFile] else []
  if tryOpenZeppelin ∧ fs K.OpenzeppelinConfigFile = .ok then
    (.returned, some .openzeppelin, probes)
  else
  let tryBuidler : Bool :=
    decide (provider = K.BuidlerDeploymentProvider) || decide (provider = "")
  let probes := if tryBuidler then probes ++ [K.BuidlerConfigFile] else probes
  if tryBuidler ∧ fs K.BuidlerConfigFile = .ok then
    (.returned, some .buidler, probes)
  else
  let tryHardhat : Bool :=
    decide (provider = K.HardhatDeploymentProvider) || decide (provider = "")
  let probes := if tryHardhat then probes ++ [K.HardhatConfigFile] else probes
  if tryHardhat ∧ fs K.HardhatConfigFile = .ok then
    (.returned, some .hardhat, probes)
  else
  let probes := probes ++ [K.NewTruffleConfigFile]
  match fs K.NewTruffleConfigFile with
  | .ok => (.returned, some .truffle, probes)
  | .otherErr => (.exited, none, probes)
  | .notExist =>
    let probes := probes ++ [K.OldTruffleConfigFile]
    if fs K.OldTruffleConfigFile = .ok then
      (.returned, some .truffle, probes)
    else
      (.returned, none, probes)

/-- Modelled from the spec: the persisted-configuration helpers
`config.MaybeGetString`, `config.SetProjectConfig` and `WriteProjectConfig`, which
are not part of the source at hand.  Reading yields the stored provider name, the
empty string when none is stored; setting and writing replace the stored name. -/
def writeProvider (_stored : String) (provider : String) : String := provider

/-- The function `initProvider`.  `fs` is the project directory, `stored` the value of
`config.MaybeGetString(config.Provider)`, `resetProvider` the flag of that name
and `select` the interactive selection. -/
def initProvider (K : Consts) (fs : Dir) (stored : String) (resetProvider : Bool)
    (select : Select) : Run :=
  let provider := stored
  let detected : List String × List String :=
    if provider = "" ∨ resetProvider = true then initProvider.detect K fs else ([], [])
  let promptProviders := detected.1
  let probes := detected.2
  let selection : Except Outcome String :=
    if promptProviders.length > 1 then promptProviderSelect select promptProviders
    else .ok provider
  let prompted : Option (List String) :=
    if promptProviders.length > 1 then some promptProviders else none
  match selection with
  | .error o =>
    { outcome := o, deploymentProvider := none, persisted := stored,
      prompted := prompted, probes := probes }
  | .ok provider =>
    let persisted := if provider ≠ "" then writeProvider stored provider else stored
    let r := initProvider.cascade K fs provider
    { outcome := r.1, deploymentProvider := r.2.1, persisted := persisted,
      prompted := prompted, probes := probes ++ r.2.2 }

/-- The name under which a provider adapter is persisted. -/
def Consts.nameOf (K : Consts) : Adapter → String
  | .openzeppelin => K.OpenZeppelinDeploymentProvider
  | .buidler => K.BuidlerDeploymentProvider
  | .hardhat => K.HardhatDeploymentProvider
  | .truffle => K.TruffleDeploymentProvider

/-- The marker files of a provider: Truffle has a new-style and a legacy one. -/
def Consts.markersOf (K : Consts) : Adapter → List String
  | .openzeppelin => [K.OpenzeppelinConfigFile]
  | .buidler => [K.BuidlerConfigFile]
  | .hardhat => [K.HardhatConfigFile]
  | .truffle => [K.NewTruffleConfigFile, K.OldTruffleConfigFile]

/-- The provider called `name` has a marker file that exists in `fs` (for Truffle:
the new or the legacy marker). -/
def Consts.MarkerExists (K : Consts) (fs : Dir) (name : String) : Prop :=
  ∃ a : Adapter, K.nameOf a = name ∧ ∃ f ∈ K.markersOf a, fs f = .ok

/-- The provider called `name` is one of the four known ones and none of its marker
files exists in `fs`. -/
def Consts.MarkerMissing (K : Consts) (fs : Dir) (name : String) : Prop :=
  ∃ a : Adapter, K.nameOf a = name ∧ ∀ f ∈ K.markersOf a, fs f ≠ .ok

/-! ## `GetConfigPayload` (lines 366-391) -/

/-- The fields of `providers.Config` that `GetConfigPayload` reads.  `C` and `S` are
the types of non-nil compiler settings and legacy solc settings; `none` is `nil`. -/
structure Config (C S : Type) where
  ConfigType : String
  Compilers : Option C
  Solc : Option S

/-- The five mapping functions of package `payloads`; a result `none` is a nil
`*payloads.Config`. -/
structure Parsers (C S P : Type) where
  ParseNewTruffleConfig : C → Option P
  ParseOldTruffleConfig : S → Option P
  ParseOpenZeppelinConfig : C → Option P
  ParseBuidlerConfig : C → Option P
  ParseHardhatConfig : C → Option P

/-- The function `GetConfigPayload`.  The argument is a pointer: `none` is the nil
pointer, whose first field access panics. -/
def GetConfigPayload {C S P : Type} (K : Consts) (payloads : Parsers C S P)
    (providerConfig : Option (Config C S)) : Except Outcome (Option P) :=
  match providerConfig with
  | none => .error .panicked
  | some providerConfig =>
    .ok <|
    match decide (providerConfig.ConfigType = K.NewTruffleConfigFile),
        providerConfig.Compilers with
    | true, some compilers => payloads.ParseNewTruffleConfig compilers
    | _, _ =>
    match decide (providerConfig.ConfigType = K.OldTruffleConfigFile),
        providerConfig.Solc, providerConfig.Compilers with
    | true, some solc, _ => payloads.ParseOldTruffleConfig solc
    | true, none, some compilers => payloads.ParseNewTruffleConfig compilers
    | _, _, _ =>
    match decide (providerConfig.ConfigType = K.OpenzeppelinConfigFile),
        providerConfig.Compilers with
    | true, some compilers => payloads.ParseOpenZeppelinConfig compilers
    | _, _ =>
    match decide (providerConfig.ConfigType = K.BuidlerConfigFile),
        providerConfig.Compilers with
    | true, some compilers => payloads.ParseBuidlerConfig compilers
    | _, _ =>
    match decide (providerConfig.ConfigType = K.HardhatConfigFile),
        providerConfig.Compilers with
    | true, some compilers => payloads.ParseHardhatConfig compilers
    | _, _ => none

/-! ## `promptProjectSelect` (lines 114-174) -/

/-- The field of `model.ProjectPermissions` that is read. -/
structure ProjectPermissions where
  AddContract : Bool
deriving DecidableEq, Repr

/-- The fields of `model.Project` that are read; `Permissions` is a pointer. -/
structure Project where
  Name : String
  IsShared : Bool
  Permissions : Option ProjectPermissions
deriving DecidableEq, Repr

/-- The response of `rest.Project.CreateProject`: both fields are pointers. -/
structure ProjectResponse where
  Project : Option Project
  Error : Option String

/-- Lines 115-129 of `promptProjectSelect`: the labels shown, "Create new project"
first, then one label per project except the shared projects without the
add-contract permission, which the loop skips with `continue`. -/
def promptProjectSelect.projectNames (projects : List Project) : List String :=
  projects.foldl
    (fun projectNames project =>
      if !project.IsShared then
        projectNames ++ [project.Name]
      else
        match project.Permissions with
        | none => projectNames
        | some permissions =>
          if !permissions.AddContract then projectNames
          else projectNames ++ [project.Name ++ " (shared project)"])
    ["Create new project"]

/-- The function `promptProjectSelect`.  `select` is the interactive selection,
`promptDefault` the text prompt and `createProject` the remote call; each of the
two reports an error as `Except.error`. -/
def promptProjectSelect (projects : List Project) (select : Select)
    (promptDefault : String → Except String String)
    (createProject : String → Except String ProjectResponse) :
    Except Outcome (Option Project) :=
  let projectNames := promptProjectSelect.projectNames projects
  match select projectNames with
  | none => .error .exited
  | some index =>
    if index = 0 then
      match promptDefault "Project" with
      | .error _ => .error .exited
      | .ok name =>
        match createProject name with
        | .error _ => .error .exited
        | .ok projectResponse =>
          if projectResponse.Error.isSome then .error .exited
          else .ok projectResponse.Project
    else
      match projects.get? (index - 1) with
      | some project => .ok (some project)
      | none => .error .panicked

/-! ## Sample inputs -/

/-- A directory whose legacy Truffle marker exists while `os.Stat` on the new Truffle
marker fails with an error other than not-exist (a symbolic-link loop, say); no
other marker exists. -/
def unreadableNewTruffleDir : Dir :=
  fun f =>
    if f = sampleConsts.NewTruffleConfigFile then .otherErr
    else if f = sampleConsts.OldTruffleConfigFile then .ok
    else .notExist

/-- Three projects: a shared one without permissions, a shared one with the
add-contract permission, and one that is not shared. -/
def sampleProjects : List Project :=
  [{ Name := "A", IsShared := true, Permissions := none },
   { Name := "B", IsShared := true, Permissions := some { AddContract := true } },
   { Name := "C", IsShared := false, Permissions := none }]

/-- Sample mapping functions that tag their argument with the name of the mapping. -/
def sampleParsers : Parsers String String String where
  ParseNewTruffleConfig := fun compilers => some ("new-truffle:" ++ compilers)
  ParseOldTruffleConfig := fun solc => some ("old-truffle:" ++ solc)
  ParseOpenZeppelinConfig := fun compilers => some ("openzeppelin:" ++ compilers)
  ParseBuidlerConfig := fun compilers => some ("buidler:" ++ compilers)
  ParseHardhatConfig := fun compilers => some ("hardhat:" ++ compilers)

/-! # Properties -/

/-! ## Auxiliary facts -/

/-- Unfolding of the distinctness of the provider names into inequalities. -/
theorem Consts.namesDistinct_iff (K : Consts) :
    K.NamesDistinct ↔
      ("" ≠ K.OpenZeppelinDeploymentProvider ∧ "" ≠ K.TruffleDeploymentProvider ∧
        "" ≠ K.BuidlerDeploymentProvider ∧ "" ≠ K.HardhatDeploymentProvider) ∧
      (K.OpenZeppelinDeploymentProvider ≠ K.TruffleDeploymentProvider ∧
        K.OpenZeppelinDeploymentProvider ≠ K.BuidlerDeploymentProvider ∧
        K.OpenZeppelinDeploymentProvider ≠ K.HardhatDeploymentProvider) ∧
      (K.TruffleDeploymentProvider ≠ K.BuidlerDeploymentProvider ∧
        K.TruffleDeploymentProvider ≠ K.HardhatDeploymentProvider) ∧
      K.BuidlerDeploymentProvider ≠ K.HardhatDeploymentProvider := by
  simp [Consts.NamesDistinct, List.nodup_cons, not_or]

/-- Without reset, a stored provider suppresses detection and the selection: the run
is the cascade for the stored provider. -/
theorem initProvider_stored (K : Consts) (fs : Dir) (stored : String) (select : Select)
    (h : stored ≠ "") :
    initProvider K fs stored false select =
      { outcome := (initProvider.cascade K fs stored).1,
        deploymentProvider := (initProvider.cascade K fs stored).2.1,
        persisted := stored,
        prompted := none,
        probes := (initProvider.cascade K fs stored).2.2 } := by
  simp [initProvider, h, writeProvider]

/-- The claim C2 as amended: with a persisted provider whose marker is missing and
no reset, nothing is prompted and the persisted choice is kept; no detection
runs and the cascade does not restart from the top: the only files probed are
the persisted provider's own marker, then the new-Truffle marker and, when
that is reported as not existing, the legacy Truffle marker; and only the
Truffle markers decide the result. -/
theorem C2_missing_marker_only_truffle_fallback (K : Consts) (fs : Dir) (stored : String)
    (select : Select) (hK : K.NamesDistinct) (hmiss : K.MarkerMissing fs stored) :
    (initProvider K fs stored false select).prompted = none ∧
    (initProvider K fs stored false select).persisted = stored ∧
    ((initProvider K fs stored false select).outcome,
      (initProvider K fs stored false select).deploymentProvider) =
      (match fs K.NewTruffleConfigFile with
        | .ok => (Outcome.returned, some Adapter.truffle)
        | .otherErr => (Outcome.exited, none)
        | .notExist =>
          if fs K.OldTruffleConfigFile = .ok then (Outcome.returned, some Adapter.truffle)
          else (Outcome.returned, none)) ∧
    ∃ a : Adapter, K.nameOf a = stored ∧
      (initProvider K fs stored false select).probes =
        (if a = .truffle then [] else K.markersOf a) ++
          K.NewTruffleConfigFile ::
            (if fs K.NewTruffleConfigFile = .notExist then [K.OldTruffleConfigFile] else []) := by
  obtain ⟨⟨e1, e2, e3, e4⟩, ⟨n1, n2, n3⟩, ⟨n4, n5⟩, n6⟩ := K.namesDistinct_iff.mp hK
  obtain ⟨a, hname, hf⟩ := hmiss
  have hne : stored ≠ "" := by
    subst hname; cases a <;> simp [Consts.nameOf, Ne.symm e1, Ne.symm e2, Ne.symm e3, Ne.symm e4]
  rw [initProvider_stored K fs stored select hne]
  refine ⟨rfl, rfl, ?_, a, hname, ?_⟩
  · subst hname
    cases a <;>
      simp [Consts.markersOf] at hf <;>
      simp [Consts.nameOf, initProvider.cascade, hf, Ne.symm e1, Ne.symm e2, Ne.symm e3,
        Ne.symm e4, n1, n2, n3, n4, n5, n6, Ne.symm n1, Ne.symm n2, Ne.symm n3, Ne.symm n4,
        Ne.symm n5, Ne.symm n6] <;>
      cases hn : fs K.NewTruffleConfigFile <;> simp_all <;>
      split <;> simp_all
  · subst hname
    cases a <;>
      simp [Consts.markersOf] at hf <;>
      cases hn : fs K.NewTruffleConfigFile <;>
      simp_all [Consts.nameOf, Consts.markersOf, initProvider.cascade, Ne.symm e1, Ne.symm e2,
        Ne.symm e3, Ne.symm e4, Ne.symm n1, Ne.symm n2, Ne.symm n3, Ne.symm n4,
        Ne.symm n5, Ne.symm n6] <;>
      (try split) <;> simp_all

/-- The claim C5 as amended: with a persisted provider whose marker exists and no
reset, only markers of that provider are probed, nothing is prompted, the
persisted choice is kept and that provider's adapter is assigned, provided that
for Truffle the probe of the new marker does not fail with an error other than
not-exist. -/
theorem C5_stored_provider_with_marker (K : Consts) (fs : Dir) (stored : String)
    (select : Select) (hK : K.NamesDistinct) (hex : K.MarkerExists fs stored)
    (hnew : stored = K.TruffleDeploymentProvider → fs K.NewTruffleConfigFile ≠ .otherErr) :
    ∃ a : Adapter, K.nameOf a = stored ∧
      (initProvider K fs stored false select).outcome = .returned ∧
      (initProvider K fs stored false select).deploymentProvider = some a ∧
      (initProvider K fs stored false select).prompted = none ∧
      (initProvider K fs stored false select).persisted = stored ∧
      ∀ f ∈ (initProvider K fs stored false select).probes, f ∈ K.markersOf a := by
  obtain ⟨⟨e1, e2, e3, e4⟩, ⟨n1, n2, n3⟩, ⟨n4, n5⟩, n6⟩ := K.namesDistinct_iff.mp hK
  obtain ⟨a, hname, f, hf, hok⟩ := hex
  have hne : stored ≠ "" := by
    subst hname; cases a <;> simp [Consts.nameOf, Ne.symm e1, Ne.symm e2, Ne.symm e3, Ne.symm e4]
  rw [initProvider_stored K fs stored select hne]
  refine ⟨a, hname, ?_⟩
  subst hname
  cases a
  · simp [Consts.markersOf] at hf; subst hf
    simp [Consts.nameOf, Consts.markersOf, initProvider.cascade, hok]
  · simp [Consts.markersOf] at hf; subst hf
    simp [Consts.nameOf, Consts.markersOf, initProvider.cascade, hok, Ne.symm n2, Ne.symm e3]
  · simp [Consts.markersOf] at hf; subst hf
    simp [Consts.nameOf, Consts.markersOf, initProvider.cascade, hok, Ne.symm n3, Ne.symm n6,
      Ne.symm e4]
  · have hnew2 := hnew rfl
    simp [Consts.markersOf] at hf
    cases hn : fs K.NewTruffleConfigFile
    · simp [Consts.nameOf, Consts.markersOf, initProvider.cascade, hn, Ne.symm n1, n4, n5, Ne.symm e2]
    · have hold : fs K.OldTruffleConfigFile = .ok := by
        rcases hf with hf | hf
        · subst hf; rw [hn] at hok; cases hok
        · subst hf; exact hok
      simp [Consts.nameOf, Consts.markersOf, initProvider.cascade, hn, hold, Ne.symm n1, n4,
        n5, Ne.symm e2]
    · exact absurd hn hnew2

/-- The candidates of lines 244-259 in closed form: OpenZeppelin, then Truffle, then
Buidler and Hardhat together (both on the Buidler marker). -/
theorem initProvider.detect_items (K : Consts) (fs : Dir) :
    (initProvider.detect K fs).1 =
      (if fs K.OpenzeppelinConfigFile = .ok then [K.OpenZeppelinDeploymentProvider] else [])
        ++ (if fs K.NewTruffleConfigFile = .ok ∨ fs K.OldTruffleConfigFile = .ok then
              [K.TruffleDeploymentProvider] else [])
        ++ (if fs K.BuidlerConfigFile = .ok then
              [K.BuidlerDeploymentProvider, K.HardhatDeploymentProvider] else []) := by
  unfold initProvider.detect
  by_cases h1 : fs K.OpenzeppelinConfigFile = .ok <;>
    by_cases h2 : fs K.NewTruffleConfigFile = .ok <;>
    by_cases h3 : fs K.OldTruffleConfigFile = .ok <;>
    by_cases h4 : fs K.BuidlerConfigFile = .ok <;>
    simp [h1, h2, h3, h4]

/-- The candidates are a sublist of the four provider names in the order of the
source: OpenZeppelin, Truffle, Buidler, Hardhat. -/
theorem initProvider.detect_sublist (K : Consts) (fs : Dir) :
    (initProvider.detect K fs).1.Sublist
      [K.OpenZeppelinDeploymentProvider, K.TruffleDeploymentProvider,
        K.BuidlerDeploymentProvider, K.HardhatDeploymentProvider] := by
  rw [initProvider.detect_items]
  by_cases h1 : fs K.OpenzeppelinConfigFile = .ok <;>
    by_cases h2 : fs K.NewTruffleConfigFile = .ok ∨ fs K.OldTruffleConfigFile = .ok <;>
    by_cases h4 : fs K.BuidlerConfigFile = .ok <;>
    simp [h1, h2, h4]

/-- The items handed to the selection, in closed form: the detected candidates, when
detection ran and found more than one. -/
theorem initProvider_prompted_eq (K : Consts) (fs : Dir) (stored : String)
    (resetProvider : Bool) (select : Select) :
    (initProvider K fs stored resetProvider select).prompted =
      if (stored = "" ∨ resetProvider = true) ∧ 1 < (initProvider.detect K fs).1.length then
        some (initProvider.detect K fs).1
      else none := by
  unfold initProvider
  by_cases hd : stored = "" ∨ resetProvider = true
  · by_cases hl : 1 < (initProvider.detect K fs).1.length
    · simp only [hd, hl, if_true, gt_iff_lt, and_self]
      split <;> rfl
    · simp only [hd, hl, if_true, if_false, gt_iff_lt, and_false]
  · simp [hd]

/-- Whatever is prompted is the list of detected candidates. -/
theorem initProvider_prompted (K : Consts) (fs : Dir) (stored : String)
    (resetProvider : Bool) (select : Select) (items : List String)
    (h : (initProvider K fs stored resetProvider select).prompted = some items) :
    items = (initProvider.detect K fs).1 ∧ 1 < items.length := by
  rw [initProvider_prompted_eq] at h
  split at h
  · rename_i hc
    cases h
    exact ⟨rfl, hc.2⟩
  · cases h

/-- The claim C6 as amended: the items of the interactive selection are the detected
candidates in the order OpenZeppelin, Truffle, Buidler, Hardhat, without
duplicates; OpenZeppelin, Truffle and Buidler are listed exactly when a marker
of theirs exists; and a directory with the OpenZeppelin and new-Truffle markers
but no Buidler marker, with no provider persisted, prompts exactly
OpenZeppelin and Truffle. -/
theorem C6_prompt_items_in_source_order (K : Consts) (fs : Dir) (stored : String)
    (resetProvider : Bool) (select : Select) (hK : K.NamesDistinct) :
    (∀ items, (initProvider K fs stored resetProvider select).prompted = some items →
      items.Sublist
        [K.OpenZeppelinDeploymentProvider, K.TruffleDeploymentProvider,
          K.BuidlerDeploymentProvider, K.HardhatDeploymentProvider] ∧
      items.Nodup ∧
      (K.OpenZeppelinDeploymentProvider ∈ items ↔ fs K.OpenzeppelinConfigFile = .ok) ∧
      (K.TruffleDeploymentProvider ∈ items ↔
        (fs K.NewTruffleConfigFile = .ok ∨ fs K.OldTruffleConfigFile = .ok)) ∧
      (K.BuidlerDeploymentProvider ∈ items ↔ fs K.BuidlerConfigFile = .ok)) ∧
    (fs K.OpenzeppelinConfigFile = .ok → fs K.NewTruffleConfigFile = .ok →
      fs K.BuidlerConfigFile ≠ .ok →
      (initProvider K fs "" resetProvider select).prompted =
        some [K.OpenZeppelinDeploymentProvider, K.TruffleDeploymentProvider]) := by
  obtain ⟨⟨e1, e2, e3, e4⟩, ⟨n1, n2, n3⟩, ⟨n4, n5⟩, n6⟩ := K.namesDistinct_iff.mp hK
  constructor
  · intro items h
    obtain ⟨hitems, -⟩ := initProvider_prompted K fs stored resetProvider select items h
    have hsub := initProvider.detect_sublist K fs
    rw [← hitems] at hsub
    have hnodup : [K.OpenZeppelinDeploymentProvider, K.TruffleDeploymentProvider,
        K.BuidlerDeploymentProvider, K.HardhatDeploymentProvider].Nodup := by
      simp [n1, n2, n3, n4, n5, n6]
    refine ⟨hsub, hnodup.sublist hsub, ?_, ?_, ?_⟩ <;>
      rw [hitems, initProvider.detect_items] <;>
      by_cases h1 : fs K.OpenzeppelinConfigFile = .ok <;>
      by_cases h2 : fs K.NewTruffleConfigFile = .ok ∨ fs K.OldTruffleConfigFile = .ok <;>
      by_cases h4 : fs K.BuidlerConfigFile = .ok <;>
      simp [h1, h2, h4, n1, n2, n3, n4, n5, n6, Ne.symm n1, Ne.symm n2, Ne.symm n4]
  · intro h1 h2 h4
    simp [initProvider, initProvider.detect, h1, h2, h4]
    split <;> rfl

/-- Unfolding of the distinctness of the marker file names into inequalities. -/
theorem Consts.filesDistinct_iff (K : Consts) :
    K.FilesDistinct ↔
      (K.NewTruffleConfigFile ≠ K.OldTruffleConfigFile ∧
        K.NewTruffleConfigFile ≠ K.OpenzeppelinConfigFile ∧
        K.NewTruffleConfigFile ≠ K.BuidlerConfigFile ∧
        K.NewTruffleConfigFile ≠ K.HardhatConfigFile) ∧
      (K.OldTruffleConfigFile ≠ K.OpenzeppelinConfigFile ∧
        K.OldTruffleConfigFile ≠ K.BuidlerConfigFile ∧
        K.OldTruffleConfigFile ≠ K.HardhatConfigFile) ∧
      (K.OpenzeppelinConfigFile ≠ K.BuidlerConfigFile ∧
        K.OpenzeppelinConfigFile ≠ K.HardhatConfigFile) ∧
      K.BuidlerConfigFile ≠ K.HardhatConfigFile := by
  simp [Consts.FilesDistinct, List.nodup_cons, not_or]

/-- The claim C4: `GetConfigPayload` follows the first-match dispatch.  New-Truffle
with compilers maps the compilers with `ParseNewTruffleConfig`; old-Truffle with
solc settings maps them with `ParseOldTruffleConfig` whatever the compilers;
old-Truffle without solc but with compilers falls back to
`ParseNewTruffleConfig`; OpenZeppelin, Buidler and Hardhat with compilers use
their own mapping; every other config yields a normal return of nil. -/
theorem C4_GetConfigPayload_dispatch {C S P : Type} (K : Consts) (payloads : Parsers C S P)
    (c : Config C S) (hK : K.FilesDistinct) :
    (∀ compilers, c.ConfigType = K.NewTruffleConfigFile → c.Compilers = some compilers →
      GetConfigPayload K payloads (some c) = .ok (payloads.ParseNewTruffleConfig compilers)) ∧
    (∀ solc, c.ConfigType = K.OldTruffleConfigFile → c.Solc = some solc →
      GetConfigPayload K payloads (some c) = .ok (payloads.ParseOldTruffleConfig solc)) ∧
    (∀ compilers, c.ConfigType = K.OldTruffleConfigFile → c.Solc = none →
      c.Compilers = some compilers →
      GetConfigPayload K payloads (some c) = .ok (payloads.ParseNewTruffleConfig compilers)) ∧
    (∀ compilers, c.ConfigType = K.OpenzeppelinConfigFile → c.Compilers = some compilers →
      GetConfigPayload K payloads (some c) = .ok (payloads.ParseOpenZeppelinConfig compilers)) ∧
    (∀ compilers, c.ConfigType = K.BuidlerConfigFile → c.Compilers = some compilers →
      GetConfigPayload K payloads (some c) = .ok (payloads.ParseBuidlerConfig compilers)) ∧
    (∀ compilers, c.ConfigType = K.HardhatConfigFile → c.Compilers = some compilers →
      GetConfigPayload K payloads (some c) = .ok (payloads.ParseHardhatConfig compilers)) ∧
    (¬ ((c.ConfigType ∈ [K.NewTruffleConfigFile, K.OpenzeppelinConfigFile,
            K.BuidlerConfigFile, K.HardhatConfigFile] ∧ c.Compilers ≠ none) ∨
         (c.ConfigType = K.OldTruffleConfigFile ∧ (c.Solc ≠ none ∨ c.Compilers ≠ none))) →
      GetConfigPayload K payloads (some c) = .ok none) := by
  obtain ⟨⟨f1, f2, f3, f4⟩, ⟨f5, f6, f7⟩, ⟨f8, f9⟩, f10⟩ := K.filesDistinct_iff.mp hK
  obtain ⟨ty, comp, solc⟩ := c
  refine ⟨?_, ?_, ?_, ?_, ?_, ?_, ?_⟩
  · rintro x rfl rfl
    simp [GetConfigPayload]
  · rintro x rfl rfl
    cases comp <;> simp [GetConfigPayload, Ne.symm f1]
  · rintro x rfl rfl rfl
    simp [GetConfigPayload, Ne.symm f1]
  · rintro x rfl rfl
    simp [GetConfigPayload, Ne.symm f2, Ne.symm f5]
  · rintro x rfl rfl
    simp [GetConfigPayload, Ne.symm f3, Ne.symm f6, Ne.symm f8]
  · rintro x rfl rfl
    simp [GetConfigPayload, Ne.symm f4, Ne.symm f7, Ne.symm f9, Ne.symm f10]
  · intro h
    simp only [List.mem_cons, List.mem_singleton, List.not_mem_nil, or_false, not_or,
      not_and] at h
    obtain ⟨h1, h2⟩ := h
    cases comp with
    | none =>
      cases solc with
      | none => simp [GetConfigPayload]
      | some s =>
        have : ty ≠ K.OldTruffleConfigFile := fun e => by simpa using h2 e
        simp [GetConfigPayload, this]
    | some x =>
      have hn : ¬ (ty = K.NewTruffleConfigFile ∨ ty = K.OpenzeppelinConfigFile ∨
          ty = K.BuidlerConfigFile ∨ ty = K.HardhatConfigFile) := fun e => by simpa using h1 e
      have ho : ty ≠ K.OldTruffleConfigFile := fun e => by simpa using h2 e
      simp only [not_or] at hn
      simp [GetConfigPayload, hn.1, hn.2.1, hn.2.2.1, hn.2.2.2, ho]

/-- The list shown by `promptProjectSelect` has at most one entry per project besides
"Create new project". -/
theorem promptProjectSelect.projectNames_length_le (projects : List Project) :
    (promptProjectSelect.projectNames projects).length ≤ projects.length + 1 := by
  unfold promptProjectSelect.projectNames
  suffices h : ∀ (init : List String),
      (projects.foldl
        (fun projectNames project =>
          if !project.IsShared then
            projectNames ++ [project.Name]
          else
            match project.Permissions with
            | none => projectNames
            | some permissions =>
              if !permissions.AddContract then projectNames
              else projectNames ++ [project.Name ++ " (shared project)"]) init).length
        ≤ projects.length + init.length by
    simpa using h ["Create new project"]
  induction projects with
  | nil => intro init; simp
  | cons p ps ih =>
    intro init
    simp only [List.foldl_cons, List.length_cons]
    refine (ih _).trans ?_
    split
    · simp; omega
    · split
      · omega
      · split
        · omega
        · simp; omega

/-- Every index other than 0 that can be selected in the displayed list is in bounds
for the lookup `projects[index-1]`: the lookup does not panic. -/
theorem promptProjectSelect_lookup_in_bounds (projects : List Project) (index : Nat)
    (_h0 : 1 ≤ index) (h : index < (promptProjectSelect.projectNames projects).length) :
    index - 1 < projects.length := by
  have := promptProjectSelect.projectNames_length_le projects
  omega

/-- Whatever the constants: with nothing persisted, a Buidler marker and no
OpenZeppelin or Truffle marker, the selection is invoked with Buidler and
Hardhat, whether or not a Hardhat marker exists. -/
theorem initProvider_buidler_marker_lists_hardhat (K : Consts) (fs : Dir)
    (resetProvider : Bool) (select : Select)
    (hb : fs K.BuidlerConfigFile = .ok) (hoz : fs K.OpenzeppelinConfigFile ≠ .ok)
    (hnew : fs K.NewTruffleConfigFile ≠ .ok) (hold : fs K.OldTruffleConfigFile ≠ .ok) :
    (initProvider K fs "" resetProvider select).prompted =
      some [K.BuidlerDeploymentProvider, K.HardhatDeploymentProvider] := by
  rw [initProvider_prompted_eq, initProvider.detect_items]
  simp [hb, hoz, hnew, hold]

/-! ## Evaluations at concrete inputs -/

/-- Evaluation for claim C1: in a directory holding only the Buidler marker, with no
provider persisted, detection lists Buidler and Hardhat and the interactive
selection is invoked; picking the second item persists Hardhat and assigns no
adapter. -/
theorem C1_buidler_only_dir_prompts :
    initProvider sampleConsts (dirOf ["buidler.config.js"]) "" false (fun _ => some 1) =
      { outcome := .returned, deploymentProvider := none, persisted := "hardhat",
        prompted := some ["buidler", "hardhat"],
        probes := ["networks.js", "truffle-config.js", "truffle.js", "buidler.config.js",
          "buidler.config.js", "hardhat.config.js", "truffle-config.js", "truffle.js"] } := by
  decide

/-- Counterexample to claim C2: Hardhat is persisted, its marker is missing and only
the OpenZeppelin marker exists; the cascade does not restart from the top, no
adapter is assigned. -/
theorem C2_counterexample :
    sampleConsts.MarkerMissing (dirOf ["networks.js"]) "hardhat" ∧
    dirOf ["networks.js"] sampleConsts.OpenzeppelinConfigFile = .ok ∧
    (initProvider sampleConsts (dirOf ["networks.js"]) "hardhat" false
      (fun _ => none)).outcome = .returned ∧
    (initProvider sampleConsts (dirOf ["networks.js"]) "hardhat" false
      (fun _ => none)).deploymentProvider = none :=
  ⟨⟨.hardhat, rfl, by decide⟩, by decide, by decide, by decide⟩

/-- Witness for `C2_missing_marker_only_truffle_fallback`: Hardhat persisted, its
marker missing, OpenZeppelin and new-Truffle markers present: Truffle is
assigned, and only the Hardhat and the new-Truffle marker are probed. -/
theorem C2_missing_marker_only_truffle_fallback_witness :
    sampleConsts.NamesDistinct ∧
    sampleConsts.MarkerMissing (dirOf ["networks.js", "truffle-config.js"]) "hardhat" ∧
    (initProvider sampleConsts (dirOf ["networks.js", "truffle-config.js"]) "hardhat" false
      (fun _ => none)).prompted = none ∧
    (initProvider sampleConsts (dirOf ["networks.js", "truffle-config.js"]) "hardhat" false
      (fun _ => none)).persisted = "hardhat" ∧
    ((initProvider sampleConsts (dirOf ["networks.js", "truffle-config.js"]) "hardhat" false
        (fun _ => none)).outcome,
      (initProvider sampleConsts (dirOf ["networks.js", "truffle-config.js"]) "hardhat" false
        (fun _ => none)).deploymentProvider) = (Outcome.returned, some Adapter.truffle) ∧
    ∃ a : Adapter, sampleConsts.nameOf a = "hardhat" ∧
      (initProvider sampleConsts (dirOf ["networks.js", "truffle-config.js"]) "hardhat" false
        (fun _ => none)).probes =
        (if a = .truffle then [] else sampleConsts.markersOf a) ++ ["truffle-config.js"] :=
  ⟨by decide, ⟨.hardhat, rfl, by decide⟩,
    C2_missing_marker_only_truffle_fallback sampleConsts
      (dirOf ["networks.js", "truffle-config.js"]) "hardhat" (fun _ => none) (by decide)
      ⟨.hardhat, rfl, by decide⟩⟩

/-- Evaluation for claim C3: with the new-Truffle and Buidler markers and no provider
persisted, the selection shows Truffle, Buidler, Hardhat; picking Hardhat
persists Hardhat but assigns the Truffle adapter. -/
theorem C3_picked_hardhat_gets_truffle :
    initProvider sampleConsts (dirOf ["truffle-config.js", "buidler.config.js"]) "" false
        (fun _ => some 2) =
      { outcome := .returned, deploymentProvider := some .truffle, persisted := "hardhat",
        prompted := some ["truffle", "buidler", "hardhat"],
        probes := ["networks.js", "truffle-config.js", "buidler.config.js",
          "buidler.config.js", "hardhat.config.js", "truffle-config.js"] } := by
  decide

/-- Witness for `C4_GetConfigPayload_dispatch`: an old-Truffle config carrying both
solc and compiler settings is mapped from the solc settings. -/
theorem C4_GetConfigPayload_dispatch_witness :
    sampleConsts.FilesDistinct ∧
    GetConfigPayload sampleConsts sampleParsers
        (some { ConfigType := "truffle.js", Compilers := some "0.8.1", Solc := some "0.4.24" })
      = .ok (sampleParsers.ParseOldTruffleConfig "0.4.24") :=
  ⟨by decide,
    (C4_GetConfigPayload_dispatch sampleConsts sampleParsers
      { ConfigType := "truffle.js", Compilers := some "0.8.1", Solc := some "0.4.24" }
      (by decide)).2.1 "0.4.24" rfl rfl⟩

/-- Counterexample to claim C5: Truffle is persisted and its legacy marker exists,
but the probe of the new marker fails with an error other than not-exist: the
process exits and no adapter is assigned. -/
theorem C5_counterexample :
    sampleConsts.MarkerExists unreadableNewTruffleDir "truffle" ∧
    (initProvider sampleConsts unreadableNewTruffleDir "truffle" false
      (fun _ => none)).outcome = .exited ∧
    (initProvider sampleConsts unreadableNewTruffleDir "truffle" false
      (fun _ => none)).deploymentProvider = none :=
  ⟨⟨.truffle, rfl, "truffle.js", by decide, by decide⟩, by decide, by decide⟩

/-- Witness for `C5_stored_provider_with_marker`: Truffle persisted, only the legacy
Truffle marker and the OpenZeppelin marker present. -/
theorem C5_stored_provider_with_marker_witness :
    sampleConsts.NamesDistinct ∧
    sampleConsts.MarkerExists (dirOf ["networks.js", "truffle.js"]) "truffle" ∧
    ∃ a : Adapter, sampleConsts.nameOf a = "truffle" ∧
      (initProvider sampleConsts (dirOf ["networks.js", "truffle.js"]) "truffle" false
        (fun _ => none)).outcome = .returned ∧
      (initProvider sampleConsts (dirOf ["networks.js", "truffle.js"]) "truffle" false
        (fun _ => none)).deploymentProvider = some a ∧
      (initProvider sampleConsts (dirOf ["networks.js", "truffle.js"]) "truffle" false
        (fun _ => none)).prompted = none ∧
      (initProvider sampleConsts (dirOf ["networks.js", "truffle.js"]) "truffle" false
        (fun _ => none)).persisted = "truffle" ∧
      ∀ f ∈ (initProvider sampleConsts (dirOf ["networks.js", "truffle.js"]) "truffle" false
        (fun _ => none)).probes, f ∈ sampleConsts.markersOf a :=
  ⟨by decide, ⟨.truffle, rfl, "truffle.js", by decide, by decide⟩,
    C5_stored_provider_with_marker sampleConsts (dirOf ["networks.js", "truffle.js"])
      "truffle" (fun _ => none) (by decide)
      ⟨.truffle, rfl, "truffle.js", by decide, by decide⟩ (fun _ => by decide)⟩

/-- Counterexample to claim C6: with the new-Truffle and Buidler markers the items are
Truffle, Buidler, Hardhat, which is not in the order OpenZeppelin, Buidler,
Hardhat, Truffle. -/
theorem C6_counterexample :
    (initProvider sampleConsts (dirOf ["truffle-config.js", "buidler.config.js"]) "" false
      (fun _ => some 0)).prompted = some ["truffle", "buidler", "hardhat"] ∧
    ¬ List.Sublist ["truffle", "buidler", "hardhat"]
        [sampleConsts.OpenZeppelinDeploymentProvider, sampleConsts.BuidlerDeploymentProvider,
          sampleConsts.HardhatDeploymentProvider, sampleConsts.TruffleDeploymentProvider] :=
  ⟨by decide, by decide⟩

/-- Witness for `C6_prompt_items_in_source_order`: the OpenZeppelin and new-Truffle
markers alone, nothing persisted, prompt exactly OpenZeppelin and Truffle. -/
theorem C6_prompt_items_in_source_order_witness :
    sampleConsts.NamesDistinct ∧
    (initProvider sampleConsts (dirOf ["networks.js", "truffle-config.js"]) "" false
      (fun _ => some 0)).prompted = some ["openzeppelin", "truffle"] :=
  ⟨by decide,
    (C6_prompt_items_in_source_order sampleConsts (dirOf ["networks.js", "truffle-config.js"])
      "" false (fun _ => some 0) (by decide)).2 (by decide) (by decide) (by decide)⟩

/-- Evaluation for claim C9: Truffle is persisted, reset is requested and detection
yields the single candidate OpenZeppelin; the old choice stays in force and
persisted, and no adapter is assigned. -/
theorem C9_reset_single_candidate_ignored :
    (initProvider.detect sampleConsts (dirOf ["networks.js"])).1 = ["openzeppelin"] ∧
    initProvider sampleConsts (dirOf ["networks.js"]) "truffle" true (fun _ => none) =
      { outcome := .returned, deploymentProvider := none, persisted := "truffle",
        prompted := none,
        probes := ["networks.js", "truffle-config.js", "truffle.js", "buidler.config.js",
          "buidler.config.js", "truffle-config.js", "truffle.js"] } :=
  ⟨by decide, by decide⟩

/-- Evaluation for claim C10: the list shown omits the shared project "A"; selecting
index 1, displayed as "B (shared project)", returns project "A". -/
theorem C10_selected_label_mismatch :
    promptProjectSelect.projectNames sampleProjects =
      ["Create new project", "B (shared project)", "C"] ∧
    promptProjectSelect sampleProjects (fun _ => some 1) (fun _ => .error "unused")
        (fun _ => .error "unused") =
      .ok (some { Name := "A", IsShared := true, Permissions := none }) :=
  ⟨by decide, rfl⟩

end Commands
